import Mathlib

/-!
Verification of the kepler networking service (src/ipfs_embed/net/mod.rs) against
its natural-language specification. The Rust code is shallowly embedded: pure
control flow becomes Lean functions, channel contents become lists of events,
and the fallible environment steps of construction become explicit oracle
inputs. Parts of the repository that are referenced from the networking module
but whose sources are not available (the behaviour submodule and the peers
submodule) are modelled from the specification; every such definition carries a
doc comment starting with the words Modelled from the spec.
-/

namespace Kepler

/-- A peer identity's derived short identifier (PeerId). -/
structure PeerId where
  pid : Nat
deriving DecidableEq, Repr

/-- A content identifier (Cid): a self-describing multihash, embedded as raw bytes. -/
structure Cid where
  bytes : List Nat
deriving DecidableEq, Repr

instance : Inhabited Cid := ⟨Cid.mk []⟩

/-- One component of a multiaddress. The terminal component may be a peer suffix. -/
inductive Protocol where
  | ip4 (a : Nat)
  | tcp (port : Nat)
  | memory (n : Nat)
  | p2p (peer : PeerId)
deriving DecidableEq, Repr

/-- A multi-component network address. -/
abbrev Multiaddr := List Protocol

/-- Rust Result, embedded with explicit error type. -/
inductive KResult (ε α : Type) where
  | ok (a : α)
  | err (e : ε)
deriving DecidableEq, Repr

/-- Whether a result is the ok variant. -/
def KResult.isOk {ε α : Type} : KResult ε α → Bool
  | KResult.ok _ => true
  | KResult.err _ => false

/-- Query errors crossing the facade through query channels. -/
inductive KErr where
  | blockNotFound (c : Cid)
  | otherErr
deriving DecidableEq, Repr

/-! ### Identity loading (NetworkService::new, net/mod.rs lines 95-105) -/

/-- A libp2p identity keypair, by key algorithm. -/
inductive Keypair where
  | ed25519 (seed : Nat)
  | rsaKey (seed : Nat)
deriving DecidableEq, Repr

/-- Raw identity key bytes on disk, tagged with the encoding they were written in.
An Ed25519 keypair encoding (64 raw bytes) is not a PKCS#8 RSA document. -/
inductive KeyBytes where
  | ed25519Enc (seed : Nat)
  | rsaPkcs8Enc (seed : Nat)
deriving DecidableEq, Repr

/-- Identity decode errors. -/
inductive IdError where
  | notRsaPkcs8
deriving DecidableEq, Repr

/-- Embedding of identity Keypair rsa_from_pkcs8 from the libp2p identity module:
it parses a PKCS#8 DER document holding an RSA key and fails on any other bytes,
in particular on an Ed25519 keypair encoding. -/
def rsa_from_pkcs8 : KeyBytes → KResult IdError Keypair
  | KeyBytes.rsaPkcs8Enc s => KResult.ok (Keypair.rsaKey s)
  | KeyBytes.ed25519Enc _ => KResult.err IdError.notRsaPkcs8

/-- The Ed25519 keypair encoding written on first start (net/mod.rs lines 99-102). -/
def ed25519Encode (seed : Nat) : KeyBytes := KeyBytes.ed25519Enc seed

/-- The short identifier derived from a keypair's public key. Distinct keys give
distinct peer ids; the algorithm is part of the derivation. -/
def peerIdOf : Keypair → PeerId
  | Keypair.ed25519 s => PeerId.mk (2 * s)
  | Keypair.rsaKey s => PeerId.mk (2 * s + 1)

/-- The orbit directory state relevant to identity persistence: the kp file. -/
structure FsState where
  kpFile : Option KeyBytes
deriving DecidableEq, Repr

/-- The identity-loading prefix of NetworkService::new (net/mod.rs lines 95-105):
if the kp file reads successfully its bytes are decoded with rsa_from_pkcs8;
otherwise a fresh Ed25519 keypair is generated, its encoding is written to kp,
and the fresh keypair is used. The write itself is modelled as succeeding. -/
def loadKeypair (freshSeed : Nat) (fs0 : FsState) : KResult IdError (Keypair × FsState) :=
  match fs0.kpFile with
  | some bytes =>
      match rsa_from_pkcs8 bytes with
      | KResult.ok kp => KResult.ok (kp, fs0)
      | KResult.err e => KResult.err e
  | none =>
      KResult.ok (Keypair.ed25519 freshSeed, FsState.mk (some (ed25519Encode freshSeed)))

/-! ### Behaviour state and query submission -/

/-- Modelled from the spec: the aggregate behaviour's in-flight query state. The
behaviour submodule is not under src; the spec says a QueryId is allocated on
query submission, is unique for the lifetime of its outstanding query, and is
dropped when the behaviour signals completion or the caller cancels. -/
structure Behaviour where
  nextId : Nat
  inflight : List Nat
deriving DecidableEq, Repr

/-- Modelled from the spec: query submission allocates a fresh QueryId, stores the
channel writer, starts the sub-protocol, and returns the id with the channel. -/
def Behaviour.submitQueryId (b : Behaviour) : Behaviour × Nat :=
  (Behaviour.mk (b.nextId + 1) (b.nextId :: b.inflight), b.nextId)

/-- Modelled from the spec: cancel-by-QueryId removes the query from the in-flight
state if present and is an idempotent no-op otherwise; it never panics, also when
the behaviour has already completed the query. -/
def Behaviour.cancel (b : Behaviour) (i : Nat) : Behaviour :=
  Behaviour.mk b.nextId (b.inflight.filter (fun j => j != i))

/-- Modelled from the spec: events of a sync query channel, a sequence of progress
events ended by a terminal Complete carrying the result. -/
inductive SyncEvent where
  | progress (missing : Nat)
  | complete (res : KResult KErr Unit)
deriving DecidableEq, Repr

/-- The payload of a Complete event, none for a progress event. -/
def SyncEvent.completePayload : SyncEvent → Option (KResult KErr Unit)
  | SyncEvent.complete r => some r
  | SyncEvent.progress _ => none

/-! ### Query handles (net/mod.rs lines 477-552) -/

/-- The SyncQuery handle: an optional back reference to the swarm, an optional
QueryId, and the buffered contents of its event channel. -/
structure SyncQueryH where
  swarm : Option Unit
  qid : Option Nat
  rx : List SyncEvent
deriving DecidableEq, Repr

/-- SyncQuery::ready (net/mod.rs lines 511-519): a handle with no swarm reference
and no QueryId whose channel already holds a single Complete event. -/
def SyncQueryH.ready (res : KResult KErr Unit) : SyncQueryH :=
  SyncQueryH.mk none none [SyncEvent.complete res]

/-- The GetQuery handle: a swarm back reference, its QueryId, and its one-shot
channel (none while pending). -/
structure GetQueryH where
  swarm : Option Unit
  qid : Nat
  rx : Option (KResult KErr Unit)
deriving DecidableEq, Repr

/-- What running a Drop impl does: either it acquired the swarm lock and cancelled
a QueryId, or it touched no swarm at all. -/
inductive DropResult where
  | cancelled (i : Nat)
  | noTouch
deriving DecidableEq, Repr

/-- Drop for GetQuery (net/mod.rs lines 495-501): swarm.take().unwrap(), lock,
cancel(id). The none outcome marks the panic of unwrap on a missing swarm. -/
def GetQueryH.dropRun (q : GetQueryH) (b : Behaviour) : Option (DropResult × Behaviour) :=
  match q.swarm with
  | some _ => some (DropResult.cancelled q.qid, b.cancel q.qid)
  | none => none

/-- Drop for SyncQuery (net/mod.rs lines 544-552): only when the id is present does
it take the swarm, lock, and cancel; a ready handle touches nothing. -/
def SyncQueryH.dropRun (q : SyncQueryH) (b : Behaviour) : Option (DropResult × Behaviour) :=
  match q.qid with
  | some i =>
      match q.swarm with
      | some _ => some (DropResult.cancelled i, b.cancel i)
      | none => none
  | none => some (DropResult.noTouch, b)

/-- Future for SyncQuery (net/mod.rs lines 522-534) over the buffered channel:
skip events until the first Complete, whose payload is the future's result; an
exhausted buffer is a pending poll. -/
def syncFuturePoll : List SyncEvent → Option (KResult KErr Unit)
  | [] => none
  | e :: rest =>
      match e.completePayload with
      | some r => some r
      | none => syncFuturePoll rest

/-- Stream for SyncQuery (net/mod.rs lines 536-542): poll_next forwards to the
channel, so repeated polling yields every buffered event in channel order. -/
def streamCollect : List SyncEvent → List SyncEvent
  | [] => []
  | e :: rest => e :: streamCollect rest

/-! ### The facade methods get and sync (net/mod.rs lines 386-414) -/

/-- NetworkService::get (net/mod.rs lines 386-395): submit to the behaviour under
the lock and return an owning handle holding the swarm reference and the id. -/
def NetworkService.get (st : Behaviour) (cid : Cid) (providers : List PeerId) :
    GetQueryH × Behaviour :=
  let p := st.submitQueryId
  (GetQueryH.mk (some ()) p.2 none, p.1)

/-- NetworkService::sync (net/mod.rs lines 397-414): an empty missing list
short-circuits to ready ok; an empty providers list short-circuits to ready
BlockNotFound of the first missing cid; otherwise the query is submitted to the
behaviour and an owning handle is returned. -/
def NetworkService.sync (st : Behaviour) (cid : Cid) (providers : List PeerId)
    (missing : List Cid) : SyncQueryH × Behaviour :=
  if missing.isEmpty then (SyncQueryH.ready (KResult.ok ()), st)
  else if providers.isEmpty then
    (SyncQueryH.ready (KResult.err (KErr.blockNotFound missing.headI)), st)
  else
    let p := st.submitQueryId
    (SyncQueryH.mk (some ()) (some p.2) [], p.1)

/-! ### Swarm events and listen_on (net/mod.rs lines 195-214) -/

/-- An opaque listener identifier, stable until the listener is closed. -/
structure ListenerId where
  lid : Nat
deriving DecidableEq, Repr

/-- Modelled from the spec: the peers submodule's swarm event type is not under
src; the spec lists Discovered, NewListenAddr, ExpiredListenAddr, ListenerClosed,
PeerConnected and PeerDisconnected, and listen_on in net/mod.rs matches on the
listener-carrying variants. -/
inductive Event where
  | discovered (p : PeerId)
  | newListenAddr (l : ListenerId) (a : Multiaddr)
  | expiredListenAddr (l : ListenerId) (a : Multiaddr)
  | listenerClosed (l : ListenerId)
  | peerConnected (p : PeerId)
  | peerDisconnected (p : PeerId)
deriving DecidableEq, Repr

/-- The events yielded by the stream listen_on returns. -/
inductive ListenerEvent where
  | newListenAddr (a : Multiaddr)
  | expiredListenAddr (a : Multiaddr)
deriving DecidableEq, Repr

/-- The take_while predicate of listen_on (net/mod.rs lines 201-204): false exactly
on a ListenerClosed event carrying this call's listener id. -/
def listenTakeWhile (l : ListenerId) (e : Event) : Bool :=
  match e with
  | Event.listenerClosed i => !(i == l)
  | _ => true

/-- The filter_map of listen_on (net/mod.rs lines 205-213): map NewListenAddr and
ExpiredListenAddr events of this call's listener to ListenerEvent, drop the rest. -/
def listenFilterMap (l : ListenerId) (e : Event) : Option ListenerEvent :=
  match e with
  | Event.newListenAddr i a => if i == l then some (ListenerEvent.newListenAddr a) else none
  | Event.expiredListenAddr i a =>
      if i == l then some (ListenerEvent.expiredListenAddr a) else none
  | _ => none

/-- The stream listen_on returns, applied to the buffered swarm-events channel:
take_while on not-closed, then filter_map to ListenerEvent. -/
def listenStream (l : ListenerId) (evs : List Event) : List ListenerEvent :=
  (evs.takeWhile (listenTakeWhile l)).filterMap (listenFilterMap l)

/-! ### Transport assembly (net/mod.rs lines 107-145) -/

/-- The protocol version negotiated by the upgrade. -/
inductive UpgradeVersion where
  | v1
deriving DecidableEq, Repr

/-- The noise handshake pattern. -/
inductive NoisePattern where
  | xx
deriving DecidableEq, Repr

/-- The Diffie-Hellman key kind of the handshake. -/
inductive DhKeyKind where
  | x25519
deriving DecidableEq, Repr

/-- What authenticates the handshake keys. -/
inductive IdentityRef where
  | localIdentity
deriving DecidableEq, Repr

/-- A stream multiplexer. -/
inductive Muxer where
  | yamux
  | mplex
deriving DecidableEq, Repr

/-- One layer of the assembled transport. -/
inductive TransportLayer where
  | tcp (nodelay portReuse : Bool)
  | relayCircuit
  | versionUpgrade (v : UpgradeVersion)
  | noiseAuth (pat : NoisePattern) (key : DhKeyKind) (keyedBy : IdentityRef)
  | multiplexSelect (preferred fallback : Muxer)
  | timeoutSecs (n : Nat)
  | peerSuffixAdapter
  | dnsSystem
deriving DecidableEq, Repr

/-- The transport stack NetworkService::new assembles, bottom to top
(net/mod.rs lines 107-145): TCP with nodelay and port reuse, the relay-circuit
adapter, version V1 upgrade, noise XX over X25519 authenticated by the local
identity, yamux-preferred multiplexer selection, a 5 second timeout, the
peer-suffix adapter p2p_wrapper, and system DNS on top. -/
def transportStack : List TransportLayer :=
  [ TransportLayer.tcp true true,
    TransportLayer.relayCircuit,
    TransportLayer.versionUpgrade UpgradeVersion.v1,
    TransportLayer.noiseAuth NoisePattern.xx DhKeyKind.x25519 IdentityRef.localIdentity,
    TransportLayer.multiplexSelect Muxer.yamux Muxer.mplex,
    TransportLayer.timeoutSecs 5,
    TransportLayer.peerSuffixAdapter,
    TransportLayer.dnsSystem ]

/-- The layer sequence enumerated by the specification's composition-order
sentence, bottom to top. -/
def claimedLayers : List TransportLayer :=
  [ TransportLayer.tcp true true,
    TransportLayer.relayCircuit,
    TransportLayer.versionUpgrade UpgradeVersion.v1,
    TransportLayer.noiseAuth NoisePattern.xx DhKeyKind.x25519 IdentityRef.localIdentity,
    TransportLayer.multiplexSelect Muxer.yamux Muxer.mplex,
    TransportLayer.timeoutSecs 5,
    TransportLayer.dnsSystem ]

/-! ### External addresses (net/mod.rs lines 221-231) -/

/-- The score attached to a stored external address. -/
inductive AddressScore where
  | infinite
  | finite (n : Nat)
deriving DecidableEq, Repr

/-- Modelled from the spec: peers normalize_addr is not under src; the spec says an
Address is normalised against a peer identity by stripping or verifying its
terminal peer-suffix component against that identity, and that the adapter makes
the peer suffix mandatory for user-facing addresses. A matching suffix is kept, a
foreign suffix is stripped and replaced, a missing suffix is appended. -/
def normalize_addr (addr : Multiaddr) (peer : PeerId) : Multiaddr :=
  match addr.getLast? with
  | some (Protocol.p2p q) =>
      if q = peer then addr else addr.dropLast ++ [Protocol.p2p peer]
  | _ => addr ++ [Protocol.p2p peer]

/-- The swarm state visible to add_external_address and external_addresses. -/
structure SwarmState where
  localPeer : PeerId
  externalAddrs : List (Multiaddr × AddressScore)
deriving DecidableEq, Repr

/-- NetworkService::add_external_address (net/mod.rs lines 221-226): normalise the
address against local_peer_id, then store it with AddressScore::Infinite. -/
def addExternalAddress (s : SwarmState) (addr : Multiaddr) : SwarmState :=
  SwarmState.mk s.localPeer
    (s.externalAddrs ++ [(normalize_addr addr s.localPeer, AddressScore.infinite)])

/-- NetworkService::external_addresses (net/mod.rs lines 228-231): snapshot of the
stored address records. -/
def externalAddresses (s : SwarmState) : List (Multiaddr × AddressScore) :=
  s.externalAddrs

/-! ### Construction pipeline (net/mod.rs lines 94-178) -/

/-- The environment of one run of NetworkService::new: the kp file contents, the
fresh key seed, and oracle outcomes of the three fallible construction steps that
do not depend on the kp bytes (behaviour init, noise key derivation, DNS). -/
structure NewInputs where
  fsKp : Option KeyBytes
  freshSeed : Nat
  behaviourOk : Bool
  dhDerivationOk : Bool
  dnsOk : Bool
deriving DecidableEq, Repr

/-- The construction errors NetworkService::new can return. -/
inductive NewError where
  | identityDecode
  | behaviourInit
  | dnsConstruction
deriving DecidableEq, Repr

/-- How one run of NetworkService::new ends. -/
inductive NewResult where
  | ok (p : PeerId)
  | fatalErr (e : NewError)
  | panicked
deriving DecidableEq, Repr

/-- NetworkService::new (net/mod.rs lines 94-178), step order as in the source:
load or create the identity (decode failure propagates with the question-mark
operator), construct the behaviour (question mark), derive the authenticated
noise key with into_authentic followed by unwrap (derivation failure panics),
then build the DNS transport (question mark) and on success return the service
whose local_peer_id derives from the keypair. -/
def NetworkService.new (inp : NewInputs) : NewResult :=
  match loadKeypair inp.freshSeed (FsState.mk inp.fsKp) with
  | KResult.err _ => NewResult.fatalErr NewError.identityDecode
  | KResult.ok kpfs =>
      if inp.behaviourOk = false then NewResult.fatalErr NewError.behaviourInit
      else if inp.dhDerivationOk = false then NewResult.panicked
      else if inp.dnsOk = false then NewResult.fatalErr NewError.dnsConstruction
      else NewResult.ok (peerIdOf kpfs.1)

/-! ### Lock and wake traces of the facade methods (net/mod.rs lines 185-474)

Each facade method is transcribed as the sequence of lock, swarm and waker
operations it performs, in source order. A Rust lock guard bound with a let
lives to the end of its enclosing scope, so a wake statement written before the
end of the method body executes while the lock is still held; methods that scope
the guard inside a block release the lock at the block's closing brace. -/

/-- The facade methods whose traces are modelled. -/
inductive MethodName where
  | localPeerIdM
  | addExternalAddressM
  | addAddressM
  | removeAddressM
  | dialM
  | banM
  | unbanM
  | unprovideM
  | removeRecordM
  | subscribeM
  | publishM
  | broadcastM
  | getM
  | syncM
  | bootstrapM
  | getClosestPeersM
  | providersM
  | provideM
  | getRecordM
  | putRecordM
  | streamUpdateHeadM
deriving DecidableEq, Repr

/-- One lock, swarm or waker operation of a facade method. -/
inductive Op where
  | lockAcquire
  | lockRelease
  | wake
  | mutateSwarm (m : MethodName)
  | submitQuery (m : MethodName)
  | readSwarm (m : MethodName)
  | awaitChannel (m : MethodName)
deriving DecidableEq, Repr

/-- local_peer_id (net/mod.rs lines 185-188): lock, read, release. -/
def localPeerIdTrace : List Op :=
  [Op.lockAcquire, Op.readSwarm MethodName.localPeerIdM, Op.lockRelease]

/-- add_external_address (net/mod.rs lines 221-226): normalize_addr first calls
local_peer_id, then the method locks, mutates, wakes, and the guard drops. -/
def addExternalAddressTrace : List Op :=
  localPeerIdTrace ++
    [Op.lockAcquire, Op.mutateSwarm MethodName.addExternalAddressM, Op.wake, Op.lockRelease]

/-- add_address (net/mod.rs lines 233-239). -/
def addAddressTrace : List Op :=
  [Op.lockAcquire, Op.mutateSwarm MethodName.addAddressM, Op.wake, Op.lockRelease]

/-- remove_address (net/mod.rs lines 241-245). -/
def removeAddressTrace : List Op :=
  [Op.lockAcquire, Op.mutateSwarm MethodName.removeAddressM, Op.wake, Op.lockRelease]

/-- dial (net/mod.rs lines 247-251). -/
def dialTrace : List Op :=
  [Op.lockAcquire, Op.mutateSwarm MethodName.dialM, Op.wake, Op.lockRelease]

/-- ban (net/mod.rs lines 253-257). -/
def banTrace : List Op :=
  [Op.lockAcquire, Op.mutateSwarm MethodName.banM, Op.wake, Op.lockRelease]

/-- unban (net/mod.rs lines 259-263). -/
def unbanTrace : List Op :=
  [Op.lockAcquire, Op.mutateSwarm MethodName.unbanM, Op.wake, Op.lockRelease]

/-- unprovide (net/mod.rs lines 336-340). -/
def unprovideTrace : List Op :=
  [Op.lockAcquire, Op.mutateSwarm MethodName.unprovideM, Op.wake, Op.lockRelease]

/-- remove_record (net/mod.rs lines 359-363). -/
def removeRecordTrace : List Op :=
  [Op.lockAcquire, Op.mutateSwarm MethodName.removeRecordM, Op.wake, Op.lockRelease]

/-- subscribe, success path (net/mod.rs lines 365-370). -/
def subscribeTrace : List Op :=
  [Op.lockAcquire, Op.mutateSwarm MethodName.subscribeM, Op.wake, Op.lockRelease]

/-- publish, success path (net/mod.rs lines 372-377). -/
def publishTrace : List Op :=
  [Op.lockAcquire, Op.mutateSwarm MethodName.publishM, Op.wake, Op.lockRelease]

/-- broadcast, success path (net/mod.rs lines 379-384). -/
def broadcastTrace : List Op :=
  [Op.lockAcquire, Op.mutateSwarm MethodName.broadcastM, Op.wake, Op.lockRelease]

/-- get (net/mod.rs lines 386-395): submit, wake, guard drops at the method end. -/
def getTrace : List Op :=
  [Op.lockAcquire, Op.submitQuery MethodName.getM, Op.wake, Op.lockRelease]

/-- sync, submitting path (net/mod.rs lines 404-414). -/
def syncSubmitTrace : List Op :=
  [Op.lockAcquire, Op.submitQuery MethodName.syncM, Op.wake, Op.lockRelease]

/-- get_closest_peers (net/mod.rs lines 309-318): the lock is scoped to the block
that obtains the channel, then the channel is awaited; no wake at all. -/
def getClosestPeersTrace : List Op :=
  [Op.lockAcquire, Op.submitQuery MethodName.getClosestPeersM, Op.lockRelease,
   Op.awaitChannel MethodName.getClosestPeersM]

/-- providers (net/mod.rs lines 320-326). -/
def providersTrace : List Op :=
  [Op.lockAcquire, Op.submitQuery MethodName.providersM, Op.lockRelease,
   Op.awaitChannel MethodName.providersM]

/-- provide (net/mod.rs lines 328-334). -/
def provideTrace : List Op :=
  [Op.lockAcquire, Op.submitQuery MethodName.provideM, Op.lockRelease,
   Op.awaitChannel MethodName.provideM]

/-- get_record (net/mod.rs lines 342-348). -/
def getRecordTrace : List Op :=
  [Op.lockAcquire, Op.submitQuery MethodName.getRecordM, Op.lockRelease,
   Op.awaitChannel MethodName.getRecordM]

/-- put_record (net/mod.rs lines 350-357). -/
def putRecordTrace : List Op :=
  [Op.lockAcquire, Op.submitQuery MethodName.putRecordM, Op.lockRelease,
   Op.awaitChannel MethodName.putRecordM]

/-- stream_update_head (net/mod.rs lines 471-474): lock, mutate, release; no wake. -/
def streamUpdateHeadTrace : List Op :=
  [Op.lockAcquire, Op.mutateSwarm MethodName.streamUpdateHeadM, Op.lockRelease]

/-- bootstrap (net/mod.rs lines 289-302) for a peer list of length n: per peer one
add_address call and one dial call, then the scoped submission of the bootstrap
query, then the await of its reply channel; no wake for the submission. -/
def bootstrapTrace (n : Nat) : List Op :=
  (List.replicate n (addAddressTrace ++ dialTrace)).flatten ++
    [Op.lockAcquire, Op.submitQuery MethodName.bootstrapM, Op.lockRelease,
     Op.awaitChannel MethodName.bootstrapM]

/-- Whether a trace performs any wake at all. -/
def callsWake (t : List Op) : Bool := t.contains Op.wake

/-- Scanner: does some wake execute with the lock depth at zero after a mutation
or submission has happened, that is after the guard was released. -/
def wakesAfterReleaseAux : List Op → Nat → Bool → Bool
  | [], _, _ => false
  | Op.lockAcquire :: r, d, m => wakesAfterReleaseAux r (d + 1) m
  | Op.lockRelease :: r, d, m => wakesAfterReleaseAux r (d - 1) m
  | Op.mutateSwarm _ :: r, d, _ => wakesAfterReleaseAux r d true
  | Op.submitQuery _ :: r, d, _ => wakesAfterReleaseAux r d true
  | Op.wake :: r, d, m => (m && d == 0) || wakesAfterReleaseAux r d m
  | _ :: r, d, m => wakesAfterReleaseAux r d m

/-- The claim's property for one method: it wakes the driver after releasing the
swarm lock it held for the mutation or submission. -/
def wakesAfterRelease (t : List Op) : Bool := wakesAfterReleaseAux t 0 false

/-- Scanner: does some wake execute while the lock is held, after a mutation or
submission. -/
def wakesUnderLockAux : List Op → Nat → Bool → Bool
  | [], _, _ => false
  | Op.lockAcquire :: r, d, m => wakesUnderLockAux r (d + 1) m
  | Op.lockRelease :: r, d, m => wakesUnderLockAux r (d - 1) m
  | Op.mutateSwarm _ :: r, d, _ => wakesUnderLockAux r d true
  | Op.submitQuery _ :: r, d, _ => wakesUnderLockAux r d true
  | Op.wake :: r, d, m => (m && decide (0 < d)) || wakesUnderLockAux r d m
  | _ :: r, d, m => wakesUnderLockAux r d m

/-- The method wakes the driver while still holding the swarm lock. -/
def wakesUnderLock (t : List Op) : Bool := wakesUnderLockAux t 0 false

/-- Whether a trace contains a query submission. -/
def hasSubmit (t : List Op) : Bool :=
  t.any (fun o => match o with | Op.submitQuery _ => true | _ => false)

/-- Whether any wake follows a query submission anywhere in the trace. -/
def wakeAfterSubmit : List Op → Bool
  | [] => false
  | Op.submitQuery _ :: r => callsWake r || wakeAfterSubmit r
  | _ :: r => wakeAfterSubmit r

/-! ### Bootstrap ordering (net/mod.rs lines 289-302) -/

/-- The source tag of an address in the behaviour's address book. -/
inductive AddressSource where
  | user
  | mdns
  | kad
  | listen
  | dial
deriving DecidableEq, Repr

/-- One step bootstrap performs, with its arguments. -/
inductive BootstrapAction where
  | addAddr (p : PeerId) (a : Multiaddr) (src : AddressSource)
  | dialPeer (p : PeerId)
  | submitBootstrap
  | awaitReply
deriving DecidableEq, Repr

/-- NetworkService::bootstrap (net/mod.rs lines 289-302): for each pair of the
peers list, in list order, call add_address (which passes AddressSource::User,
net/mod.rs line 237) and dial that peer; then submit the DHT bootstrap query and
await its reply channel. -/
def bootstrapActions (peers : List (PeerId × Multiaddr)) : List BootstrapAction :=
  (peers.flatMap fun pa =>
    [BootstrapAction.addAddr pa.1 pa.2 AddressSource.user, BootstrapAction.dialPeer pa.1]) ++
  [BootstrapAction.submitBootstrap, BootstrapAction.awaitReply]

/-! ## Helper lemmas -/

/-- The stream side of a SyncQuery forwards the channel unchanged. -/
theorem streamCollect_id (l : List SyncEvent) : streamCollect l = l := by
  induction l with
  | nil => rfl
  | cons e t ih => simp [streamCollect, ih]

/-- Filtering with the same decidable test twice equals filtering once. -/
theorem filter_ne_idem (l : List Nat) (i : Nat) :
    (l.filter fun j => j != i).filter (fun j => j != i) = l.filter fun j => j != i := by
  induction l with
  | nil => rfl
  | cons a t ih =>
    by_cases h : a = i
    · simp [List.filter_cons, h, ih]
    · simp [List.filter_cons, h, ih]

/-! ## Claims -/

/-- C1: the identity-persistence claim is right and the code is wrong. A first
construction at a directory without a kp file persists the Ed25519 keypair
encoding, but the second construction decodes the file with rsa_from_pkcs8
(net/mod.rs line 96), which rejects an Ed25519 encoding, so the second
construction returns an identity-decode error instead of reproducing the first
construction's local_peer_id. -/
theorem c1_identity_persistence_fails :
    loadKeypair 0 (FsState.mk none)
        = KResult.ok (Keypair.ed25519 0, FsState.mk (some (KeyBytes.ed25519Enc 0))) ∧
    loadKeypair 1 (FsState.mk (some (KeyBytes.ed25519Enc 0)))
        = KResult.err IdError.notRsaPkcs8 ∧
    NetworkService.new (NewInputs.mk (some (KeyBytes.ed25519Enc 0)) 1 true true true)
        = NewResult.fatalErr NewError.identityDecode :=
  ⟨rfl, rfl, rfl⟩

/-- C2: for every behaviour state, cid and providers list, sync with an empty
missing list returns, without touching the swarm, a ready handle whose future
resolves to ok; and for every non-empty missing list, sync with an empty
providers list returns a ready handle whose future resolves to BlockNotFound of
the first missing cid. -/
theorem c2_sync_short_circuit (st : Behaviour) (cid : Cid) (providers : List PeerId)
    (m : Cid) (rest : List Cid) :
    (NetworkService.sync st cid providers []).1.swarm = none ∧
    (NetworkService.sync st cid providers []).2 = st ∧
    syncFuturePoll (NetworkService.sync st cid providers []).1.rx
        = some (KResult.ok ()) ∧
    (NetworkService.sync st cid [] (m :: rest)).1.swarm = none ∧
    (NetworkService.sync st cid [] (m :: rest)).2 = st ∧
    syncFuturePoll (NetworkService.sync st cid [] (m :: rest)).1.rx
        = some (KResult.err (KErr.blockNotFound m)) :=
  ⟨rfl, rfl, rfl, rfl, rfl, rfl⟩

/-- C4: dropping a GetQuery handle produced by get acquires the swarm and cancels
its QueryId; dropping a SyncQuery handle produced by the submitting path of sync
cancels its QueryId; dropping a short-circuit SyncQuery handle performs no cancel
and touches no swarm; none of these panics (every drop outcome is some), and
cancellation is idempotent, so a cancel arriving after the query completed or was
already cancelled is a harmless no-op. -/
theorem c4_drop_semantics (st b b2 : Behaviour) (cid : Cid) (providers ps : List PeerId)
    (p : PeerId) (m : Cid) (rest : List Cid) (i : Nat) :
    (NetworkService.get st cid providers).1.dropRun b
        = some (DropResult.cancelled (NetworkService.get st cid providers).1.qid,
                b.cancel (NetworkService.get st cid providers).1.qid) ∧
    (NetworkService.sync st cid (p :: ps) (m :: rest)).1.dropRun b2
        = some (DropResult.cancelled st.nextId, b2.cancel st.nextId) ∧
    (NetworkService.sync st cid providers []).1.dropRun b
        = some (DropResult.noTouch, b) ∧
    (NetworkService.sync st cid [] (m :: rest)).1.dropRun b
        = some (DropResult.noTouch, b) ∧
    (b.cancel i).cancel i = b.cancel i := by
  refine ⟨rfl, rfl, rfl, rfl, ?_⟩
  simp [Behaviour.cancel, filter_ne_idem]

/-- C5: polled as a future, a SyncQuery resolves with the payload of the first
Complete event of its channel, discarding any preceding progress events and
staying pending while only progress events arrived; polled as a stream, the same
handle yields every event of the channel in channel order. -/
theorem c5_syncquery_future_vs_stream (pre rest : List SyncEvent) (r : KResult KErr Unit)
    (h : ∀ e ∈ pre, e.completePayload = none) :
    syncFuturePoll (pre ++ SyncEvent.complete r :: rest) = some r ∧
    syncFuturePoll pre = none ∧
    streamCollect (pre ++ SyncEvent.complete r :: rest)
        = pre ++ SyncEvent.complete r :: rest := by
  refine ⟨?_, ?_, streamCollect_id _⟩
  · induction pre with
    | nil => rfl
    | cons e t ih =>
      have he : e.completePayload = none := h e (List.mem_cons_self e t)
      simpa [syncFuturePoll, he] using ih fun x hx => h x (List.mem_cons_of_mem e hx)
  · induction pre with
    | nil => rfl
    | cons e t ih =>
      have he : e.completePayload = none := h e (List.mem_cons_self e t)
      simpa [syncFuturePoll, he] using ih fun x hx => h x (List.mem_cons_of_mem e hx)

/-- Witness for C5 at a concrete channel holding one progress event followed by a
Complete. -/
theorem c5_witness :
    (∀ e ∈ [SyncEvent.progress 2], e.completePayload = none) ∧
    syncFuturePoll ([SyncEvent.progress 2] ++ SyncEvent.complete (KResult.ok ()) :: [])
        = some (KResult.ok ()) ∧
    syncFuturePoll [SyncEvent.progress 2] = none ∧
    streamCollect ([SyncEvent.progress 2] ++ SyncEvent.complete (KResult.ok ()) :: [])
        = [SyncEvent.progress 2] ++ SyncEvent.complete (KResult.ok ()) :: [] :=
  ⟨by decide, c5_syncquery_future_vs_stream [SyncEvent.progress 2] [] (KResult.ok ())
    (by decide)⟩

/-- Unfolding of the bootstrap trace by one peer. -/
theorem bootstrapTrace_succ (k : Nat) :
    bootstrapTrace (k + 1) = (addAddressTrace ++ dialTrace) ++ bootstrapTrace k := by
  simp [bootstrapTrace, List.replicate_succ, List.append_assoc]

/-- No wake anywhere in a bootstrap trace follows the bootstrap-query submission. -/
theorem wakeAfterSubmit_bootstrap (n : Nat) :
    wakeAfterSubmit (bootstrapTrace n) = false := by
  induction n with
  | zero => decide
  | succ k ih =>
    rw [bootstrapTrace_succ]
    simpa [addAddressTrace, dialTrace, wakeAfterSubmit] using ih

/-- C3 counterexample: get_closest_peers performs no wake at all, bootstrap with an
empty peer list performs no wake at all, and add_external_address wakes while it
still holds the swarm lock, so no listed method wakes after releasing the lock. -/
theorem c3_counterexample :
    callsWake getClosestPeersTrace = false ∧
    wakesAfterRelease getClosestPeersTrace = false ∧
    callsWake (bootstrapTrace 0) = false ∧
    callsWake streamUpdateHeadTrace = false ∧
    callsWake addExternalAddressTrace = true ∧
    wakesAfterRelease addExternalAddressTrace = false := by decide

/-- C3 amended: the synchronous mutation methods and the handle-returning query
methods wake the driver, but while still holding the swarm lock rather than after
releasing it; the awaiting query methods get_closest_peers, providers, provide,
get_record, put_record, as well as stream_update_head, never wake, and bootstrap
never wakes after submitting the bootstrap query (its only wakes are those inside
the per-peer add_address and dial calls). -/
theorem c3_amended_wake_discipline :
    (∀ t ∈ [addExternalAddressTrace, addAddressTrace, removeAddressTrace, dialTrace,
            banTrace, unbanTrace, unprovideTrace, removeRecordTrace, subscribeTrace,
            publishTrace, broadcastTrace, getTrace, syncSubmitTrace],
        callsWake t = true ∧ wakesUnderLock t = true ∧ wakesAfterRelease t = false) ∧
    (∀ t ∈ [getClosestPeersTrace, providersTrace, provideTrace, getRecordTrace,
            putRecordTrace, streamUpdateHeadTrace],
        callsWake t = false) ∧
    (∀ n : Nat, wakeAfterSubmit (bootstrapTrace n) = false) ∧
    callsWake (bootstrapTrace 0) = false :=
  ⟨by decide, by decide, wakeAfterSubmit_bootstrap, by decide⟩

/-- Witness for C3 amended at the add_address and get_closest_peers traces. -/
theorem c3_amended_witness :
    callsWake addAddressTrace = true ∧ wakesUnderLock addAddressTrace = true ∧
    wakesAfterRelease addAddressTrace = false ∧
    callsWake getClosestPeersTrace = false :=
  ⟨(c3_amended_wake_discipline.1 addAddressTrace (by decide)).1,
   (c3_amended_wake_discipline.1 addAddressTrace (by decide)).2.1,
   (c3_amended_wake_discipline.1 addAddressTrace (by decide)).2.2,
   c3_amended_wake_discipline.2.1 getClosestPeersTrace (by decide)⟩

/-- takeWhile over an append whose first part satisfies the predicate throughout. -/
theorem takeWhile_append_all {α : Type} (p : α → Bool) (xs ys : List α)
    (h : ∀ e ∈ xs, p e = true) :
    (xs ++ ys).takeWhile p = xs ++ ys.takeWhile p := by
  induction xs with
  | nil => rfl
  | cons a t ih =>
    have ha : p a = true := h a (List.mem_cons_self a t)
    simp only [List.cons_append, List.takeWhile_cons_of_pos ha, List.cons.injEq, true_and]
    exact ih fun x hx => h x (List.mem_cons_of_mem a hx)

/-- takeWhile keeps a list all of whose elements satisfy the predicate. -/
theorem takeWhile_all {α : Type} (p : α → Bool) (xs : List α)
    (h : ∀ e ∈ xs, p e = true) : xs.takeWhile p = xs := by
  simpa using takeWhile_append_all p xs [] h

/-- Every event other than a ListenerClosed for this listener survives take_while. -/
theorem listenTakeWhile_of_ne (l : ListenerId) (e : Event)
    (h : e ≠ Event.listenerClosed l) : listenTakeWhile l e = true := by
  cases e with
  | listenerClosed i =>
    simp only [listenTakeWhile, Bool.not_eq_true', beq_eq_false_iff_ne, ne_eq]
    exact fun hil => h (by rw [hil])
  | discovered p => rfl
  | newListenAddr i a => rfl
  | expiredListenAddr i a => rfl
  | peerConnected p => rfl
  | peerDisconnected p => rfl

/-- C6: the stream listen_on returns yields exactly the NewListenAddr and
ExpiredListenAddr events whose listener id is the one this call created, mapped
to ListenerEvent with every other event filtered out, and it terminates exactly
at the first ListenerClosed event for that listener: events after that closing
event are dropped, while a channel holding no such closing event (including
ListenerClosed events of other listeners) passes through in full. -/
theorem c6_listen_stream (l l2 : ListenerId) (a : Multiaddr) (p : PeerId)
    (pre post evs : List Event)
    (hpre : Event.listenerClosed l ∉ pre) (hevs : Event.listenerClosed l ∉ evs) :
    listenStream l (pre ++ Event.listenerClosed l :: post)
        = pre.filterMap (listenFilterMap l) ∧
    listenStream l evs = evs.filterMap (listenFilterMap l) ∧
    listenFilterMap l (Event.newListenAddr l a) = some (ListenerEvent.newListenAddr a) ∧
    listenFilterMap l (Event.expiredListenAddr l a)
        = some (ListenerEvent.expiredListenAddr a) ∧
    (l2 ≠ l → listenFilterMap l (Event.newListenAddr l2 a) = none ∧
        listenFilterMap l (Event.expiredListenAddr l2 a) = none ∧
        listenTakeWhile l (Event.listenerClosed l2) = true) ∧
    listenFilterMap l (Event.discovered p) = none ∧
    listenFilterMap l (Event.peerConnected p) = none ∧
    listenFilterMap l (Event.peerDisconnected p) = none ∧
    listenTakeWhile l (Event.listenerClosed l) = false := by
  have hall : ∀ e ∈ pre, listenTakeWhile l e = true :=
    fun e he => listenTakeWhile_of_ne l e fun hc => hpre (hc ▸ he)
  have hclosed : listenTakeWhile l (Event.listenerClosed l) = false := by
    simp [listenTakeWhile]
  refine ⟨?_, ?_, by simp [listenFilterMap], by simp [listenFilterMap], ?_,
      rfl, rfl, rfl, hclosed⟩
  · unfold listenStream
    rw [takeWhile_append_all _ _ _ hall, List.takeWhile_cons_of_neg (by simp [hclosed]),
      List.append_nil]
  · unfold listenStream
    rw [takeWhile_all _ _ fun e he => listenTakeWhile_of_ne l e fun hc => hevs (hc ▸ he)]
  · intro h2
    refine ⟨by simp [listenFilterMap, h2], by simp [listenFilterMap, h2], ?_⟩
    simp [listenTakeWhile, h2]

/-- Witness for C6 on a concrete channel: one matching listen address, one foreign
event, a close for the listener, then a post-close event that is dropped. -/
theorem c6_witness :
    (Event.listenerClosed (ListenerId.mk 0) ∉
      [Event.newListenAddr (ListenerId.mk 0) [Protocol.tcp 1],
       Event.discovered (PeerId.mk 5)]) ∧
    listenStream (ListenerId.mk 0)
        ([Event.newListenAddr (ListenerId.mk 0) [Protocol.tcp 1],
          Event.discovered (PeerId.mk 5)] ++
          Event.listenerClosed (ListenerId.mk 0) ::
            [Event.newListenAddr (ListenerId.mk 0) [Protocol.tcp 2]])
        = [Event.newListenAddr (ListenerId.mk 0) [Protocol.tcp 1],
           Event.discovered (PeerId.mk 5)].filterMap
            (listenFilterMap (ListenerId.mk 0)) :=
  ⟨by decide,
   (c6_listen_stream (ListenerId.mk 0) (ListenerId.mk 1) [Protocol.tcp 1] (PeerId.mk 5)
      [Event.newListenAddr (ListenerId.mk 0) [Protocol.tcp 1],
       Event.discovered (PeerId.mk 5)]
      [Event.newListenAddr (ListenerId.mk 0) [Protocol.tcp 2]]
      [Event.expiredListenAddr (ListenerId.mk 0) [Protocol.tcp 1]]
      (by decide) (by decide)).1⟩

/-- C7 counterexample: when the noise handshake key derivation fails, new ends in
a panic (the unwrap on into_authentic, net/mod.rs lines 122-124) and not in any
Err value. -/
theorem c7_counterexample :
    NetworkService.new (NewInputs.mk none 0 true false true) = NewResult.panicked ∧
    NewResult.panicked ≠ NewResult.fatalErr NewError.identityDecode ∧
    NewResult.panicked ≠ NewResult.fatalErr NewError.dnsConstruction ∧
    NewResult.panicked ≠ NewResult.fatalErr NewError.behaviourInit := by decide

/-- C7 amended: identity decode failure and DNS construction failure surface as
fatal Err values returned from new, but handshake key derivation failure panics
via unwrap instead of returning Err; new panics exactly when the identity loads,
the behaviour constructs, and the derivation fails. -/
theorem c7_amended_construction_failures (inp : NewInputs) :
    (NetworkService.new inp = NewResult.panicked ↔
      ((loadKeypair inp.freshSeed (FsState.mk inp.fsKp)).isOk = true ∧
        inp.behaviourOk = true ∧ inp.dhDerivationOk = false)) ∧
    (inp.dhDerivationOk = true → NetworkService.new inp ≠ NewResult.panicked) ∧
    ((∃ bts, inp.fsKp = some bts ∧ rsa_from_pkcs8 bts = KResult.err IdError.notRsaPkcs8) →
        NetworkService.new inp = NewResult.fatalErr NewError.identityDecode) ∧
    ((loadKeypair inp.freshSeed (FsState.mk inp.fsKp)).isOk = true →
      inp.behaviourOk = true → inp.dhDerivationOk = true → inp.dnsOk = false →
        NetworkService.new inp = NewResult.fatalErr NewError.dnsConstruction) := by
  rcases inp with ⟨fsKp, seed, bOk, dOk, nOk⟩
  rcases fsKp with _ | bts
  · cases bOk <;> cases dOk <;> cases nOk <;>
      simp [NetworkService.new, loadKeypair, KResult.isOk, ed25519Encode]
  · rcases bts with s | s <;> cases bOk <;> cases dOk <;> cases nOk <;>
      simp [NetworkService.new, loadKeypair, KResult.isOk, rsa_from_pkcs8, ed25519Encode]

/-- Witness for C7 amended at the three failing environments. -/
theorem c7_amended_witness :
    NetworkService.new (NewInputs.mk none 0 true false true) = NewResult.panicked ∧
    NetworkService.new (NewInputs.mk (some (KeyBytes.ed25519Enc 3)) 0 true true true)
        = NewResult.fatalErr NewError.identityDecode ∧
    NetworkService.new (NewInputs.mk none 0 true true false)
        = NewResult.fatalErr NewError.dnsConstruction :=
  ⟨(c7_amended_construction_failures (NewInputs.mk none 0 true false true)).1.mpr
      (by decide),
   (c7_amended_construction_failures
      (NewInputs.mk (some (KeyBytes.ed25519Enc 3)) 0 true true true)).2.2.1
      ⟨KeyBytes.ed25519Enc 3, rfl, rfl⟩,
   (c7_amended_construction_failures (NewInputs.mk none 0 true true false)).2.2.2
      (by decide) rfl rfl rfl⟩

/-- C8: the assembled transport contains the seven layers of the specification's
composition-order sentence in exactly that order and with exactly the stated
parameters (nodelay and port reuse on, version V1, noise XX over X25519 keyed by
the local identity, yamux preferred over mplex, a 5 second timeout), with system
DNS as the outermost layer and TCP at the bottom; removing the peer-suffix
adapter, which the specification describes separately, leaves precisely the
claimed sequence. -/
theorem c8_transport_composition :
    transportStack.filter (fun t => !(t == TransportLayer.peerSuffixAdapter))
        = claimedLayers ∧
    List.Sublist claimedLayers transportStack ∧
    transportStack.getLast? = some TransportLayer.dnsSystem ∧
    transportStack.head? = some (TransportLayer.tcp true true) := by decide

/-- C9: add_external_address stores exactly the peer-suffix-normalised form of its
argument with Infinite score, and the stored address always ends in the local
peer identity, so external_addresses afterwards contains an address whose
terminal component is the local peer identity. -/
theorem c9_add_external_address (s : SwarmState) (addr : Multiaddr) :
    externalAddresses (addExternalAddress s addr)
        = externalAddresses s ++
            [(normalize_addr addr s.localPeer, AddressScore.infinite)] ∧
    (normalize_addr addr s.localPeer).getLast? = some (Protocol.p2p s.localPeer) ∧
    (normalize_addr addr s.localPeer, AddressScore.infinite)
        ∈ externalAddresses (addExternalAddress s addr) := by
  refine ⟨rfl, ?_, by simp [externalAddresses, addExternalAddress]⟩
  rw [normalize_addr.eq_def]
  rcases h : addr.getLast? with _ | pr
  · exact List.getLast?_concat addr
  · rcases pr with n | n | n | q
    · exact List.getLast?_concat addr
    · exact List.getLast?_concat addr
    · exact List.getLast?_concat addr
    · by_cases hq : q = s.localPeer
      · simpa [hq] using hq ▸ h
      · simp only [hq, if_false]
        exact List.getLast?_concat _

/-- Unfolding of the bootstrap action list by one peer. -/
theorem bootstrapActions_cons (pa : PeerId × Multiaddr) (rest : List (PeerId × Multiaddr)) :
    bootstrapActions (pa :: rest) =
      BootstrapAction.addAddr pa.1 pa.2 AddressSource.user ::
        BootstrapAction.dialPeer pa.1 :: bootstrapActions rest := by
  simp [bootstrapActions]

/-- The bootstrap-query submission and the channel await sit right after the
2 * length prefix of per-peer actions. -/
theorem bootstrapActions_submit_at (peers : List (PeerId × Multiaddr)) :
    (bootstrapActions peers).get? (2 * peers.length)
        = some BootstrapAction.submitBootstrap ∧
    (bootstrapActions peers).get? (2 * peers.length + 1)
        = some BootstrapAction.awaitReply := by
  induction peers with
  | nil => exact ⟨rfl, rfl⟩
  | cons pa rest ih =>
    rw [bootstrapActions_cons]
    have h2 : 2 * (pa :: rest).length = 2 * rest.length + 1 + 1 := by
      simp [List.length_cons]; ring
    constructor
    · rw [h2, List.get?_cons_succ, List.get?_cons_succ]
      exact ih.1
    · rw [h2]
      rw [show 2 * rest.length + 1 + 1 + 1 = (2 * rest.length + 1) + 1 + 1 from rfl]
      rw [List.get?_cons_succ, List.get?_cons_succ]
      exact ih.2

/-- The pair at index i of the peers list contributes its add_address action at
position 2 * i and its dial action at position 2 * i + 1. -/
theorem bootstrapActions_pair_at (peers : List (PeerId × Multiaddr)) (i : Nat)
    (h : i < peers.length) :
    (bootstrapActions peers).get? (2 * i)
        = some (BootstrapAction.addAddr (peers.get ⟨i, h⟩).1 (peers.get ⟨i, h⟩).2
            AddressSource.user) ∧
    (bootstrapActions peers).get? (2 * i + 1)
        = some (BootstrapAction.dialPeer (peers.get ⟨i, h⟩).1) := by
  induction peers generalizing i with
  | nil => exact absurd h (by simp)
  | cons pa rest ih =>
    rw [bootstrapActions_cons]
    cases i with
    | zero => exact ⟨rfl, rfl⟩
    | succ j =>
      have hj : j < rest.length := Nat.lt_of_succ_lt_succ (by simpa using h)
      have h2 : 2 * (j + 1) = 2 * j + 1 + 1 := by ring
      have h3 : 2 * (j + 1) + 1 = (2 * j + 1) + 1 + 1 := by ring
      constructor
      · rw [h2, List.get?_cons_succ, List.get?_cons_succ]
        exact (ih j hj).1
      · rw [h3, List.get?_cons_succ, List.get?_cons_succ]
        exact (ih j hj).2

/-- C10: bootstrap first walks the peers list in order, adding each address with
source User and dialling each peer, pair by pair, and only after all of them
submits the DHT bootstrap query and then awaits its reply channel. -/
theorem c10_bootstrap_order (peers : List (PeerId × Multiaddr)) (i : Nat)
    (h : i < peers.length) :
    (bootstrapActions peers).get? (2 * i)
        = some (BootstrapAction.addAddr (peers.get ⟨i, h⟩).1 (peers.get ⟨i, h⟩).2
            AddressSource.user) ∧
    (bootstrapActions peers).get? (2 * i + 1)
        = some (BootstrapAction.dialPeer (peers.get ⟨i, h⟩).1) ∧
    (bootstrapActions peers).get? (2 * peers.length)
        = some BootstrapAction.submitBootstrap ∧
    (bootstrapActions peers).get? (2 * peers.length + 1)
        = some BootstrapAction.awaitReply ∧
    2 * i + 1 < 2 * peers.length :=
  ⟨(bootstrapActions_pair_at peers i h).1, (bootstrapActions_pair_at peers i h).2,
   (bootstrapActions_submit_at peers).1, (bootstrapActions_submit_at peers).2,
   by omega⟩

/-- Witness for C10 on a two-peer list at index 1. -/
theorem c10_witness :
    1 < ([(PeerId.mk 1, [Protocol.tcp 4001]), (PeerId.mk 2, [Protocol.tcp 4002])]
          : List (PeerId × Multiaddr)).length ∧
    (bootstrapActions [(PeerId.mk 1, [Protocol.tcp 4001]), (PeerId.mk 2, [Protocol.tcp 4002])]).get? 2
        = some (BootstrapAction.addAddr (PeerId.mk 2) [Protocol.tcp 4002]
            AddressSource.user) ∧
    (bootstrapActions [(PeerId.mk 1, [Protocol.tcp 4001]), (PeerId.mk 2, [Protocol.tcp 4002])]).get? 4
        = some BootstrapAction.submitBootstrap :=
  ⟨by decide,
   (c10_bootstrap_order
      [(PeerId.mk 1, [Protocol.tcp 4001]), (PeerId.mk 2, [Protocol.tcp 4002])] 1
      (by decide)).1,
   (c10_bootstrap_order
      [(PeerId.mk 1, [Protocol.tcp 4001]), (PeerId.mk 2, [Protocol.tcp 4002])] 1
      (by decide)).2.2.1⟩

end Kepler
